import Mathlib

/-!
Verification development for the OpenCDA sustainability module
(`opencda/sustainability/{utils,metrics,evaluator}.py`).

Shallow embedding conventions:
* Python floats are modelled as real numbers (`ℝ`); all literals in the
  sources are exact decimal fractions, which `ℝ` represents exactly.
* `math.sqrt` is `Real.sqrt`, `np.std` is the population standard deviation
  over the full sample list (numpy's default `ddof = 0`).
* Python `int()` applied to a float truncates toward zero; it is modelled
  by `pyInt` below (floor for non-negative arguments, ceiling otherwise).
* CARLA sensor reads (`get_velocity`, `get_acceleration`, `get_location`,
  the snapshot) are external inputs and appear as explicit arguments.
* The CSV sink is modelled by the row values that would be written plus an
  open/closed flag; `Python`'s `round(x, k)` is `roundTo x k` (Mathlib's
  `round`, which differs from Python only on exact half-way ties —
  immaterial to every property proved here).
-/

namespace Sustain

open Classical

noncomputable section

/-- Constant `utils.G`: gravity (m/s²). -/
def G : ℝ := 9.81

/-- Constant `utils.RHO_AIR`: air density (kg/m³). -/
def RHO_AIR : ℝ := 1.225

/-- Function `utils.aerodynamic_force`: `0.5 * rho * cd * A * v^2`. -/
def aerodynamic_force (cd area speed : ℝ) : ℝ :=
  0.5 * RHO_AIR * cd * area * speed ^ 2

/-- Function `utils.rolling_resistance_force`: `crr * m * g`. -/
def rolling_resistance_force (crr mass : ℝ) : ℝ :=
  crr * mass * G

/-- Function `utils.gravity_force_on_slope`: `m * g * slope`. -/
def gravity_force_on_slope (mass slope : ℝ) : ℝ :=
  mass * G * slope

/-- Python's `round(x, k)` (to `k` decimal places). -/
def roundTo (x : ℝ) (k : ℕ) : ℝ :=
  (round (x * 10 ^ k) : ℤ) / 10 ^ k

/-- The static physical parameters a `SustainabilityMetrics` object fixes at
construction (`mass`, `cd`, `area`, `crr`, `drivetrain_eff`, `is_ev`). -/
structure Params where
  mass : ℝ
  cd : ℝ
  area : ℝ
  crr : ℝ
  drivetrain_eff : ℝ
  is_ev : Bool

/-- A CARLA 3-vector (velocity or acceleration). -/
structure Vec3 where
  x : ℝ
  y : ℝ
  z : ℝ

/-- The part of a CARLA world snapshot the tracker reads:
`timestamp.delta_seconds` and `timestamp.elapsed_seconds`. -/
structure Snapshot where
  delta_seconds : ℝ
  elapsed_seconds : ℝ

/-- The mutable state of one `SustainabilityMetrics` tracker. -/
structure Tracker where
  id : ℕ
  params : Params
  energy_j : ℝ
  regen_j : ℝ
  co2_g : ℝ
  distance_m : ℝ
  harsh_accel : ℕ
  harsh_brake : ℕ
  idle_time_s : ℝ
  jerk_samples : List ℝ
  last_accel : ℝ
  last_speed : ℝ
  sample_hz : ℕ
  accum_dt : ℝ
  sink_open : Bool

/-- Constructor `SustainabilityMetrics.__init__`: all accumulators start at zero, the
jerk history empty, and the CSV sink open. -/
def mkTracker (vid : ℕ) (p : Params) (sample_hz : ℕ) : Tracker :=
  { id := vid
    params := p
    energy_j := 0
    regen_j := 0
    co2_g := 0
    distance_m := 0
    harsh_accel := 0
    harsh_brake := 0
    idle_time_s := 0
    jerk_samples := []
    last_accel := 0
    last_speed := 0
    sample_hz := sample_hz
    accum_dt := 0
    sink_open := true }

/-- Scalar speed in `update`: `math.sqrt(vel.x**2 + vel.y**2 + vel.z**2)`. -/
def speed_of (vel : Vec3) : ℝ :=
  Real.sqrt (vel.x ^ 2 + vel.y ^ 2 + vel.z ^ 2)

/-- Longitudinal acceleration in `update`: the projection of the
acceleration vector onto the velocity direction when `speed > 0.1`,
else `0.0`. -/
def long_accel_of (vel acc : Vec3) : ℝ :=
  if 0.1 < speed_of vel then
    (vel.x * acc.x + vel.y * acc.y + vel.z * acc.z) / speed_of vel
  else 0

/-- Method `SustainabilityMetrics.compute_power`. -/
def compute_power (p : Params) (speed accel slope : ℝ) : ℝ :=
  let F_aero := aerodynamic_force p.cd p.area speed
  let F_roll := rolling_resistance_force p.crr p.mass
  let F_grav := gravity_force_on_slope p.mass slope
  let F_inertial := p.mass * accel
  let F_total := F_aero + F_roll + F_grav + F_inertial
  let P := F_total * speed
  if 0 ≤ P then P / max p.drivetrain_eff 1e-6
  else P * p.drivetrain_eff

/-- Method `SustainabilityMetrics.estimate_fuel_co2`. -/
def estimate_fuel_co2 (power_w dt_s : ℝ) : ℝ :=
  if power_w ≤ 0 then 0
  else
    let E_kwh := power_w * dt_s / 3.6e6
    let liters := E_kwh / 8.9
    liters * 2310.0

/-- Method `SustainabilityMetrics.estimate_ev_co2` (default grid intensity 400). -/
def estimate_ev_co2 (power_w dt_s : ℝ) (grid_g_per_kwh : ℝ) : ℝ :=
  power_w * dt_s / 3.6e6 * grid_g_per_kwh

/-- Population mean of a sample list (numpy `mean`). -/
def listMean (l : List ℝ) : ℝ := l.sum / l.length

/-- Population standard deviation of a sample list (numpy `std`). -/
def listStd (l : List ℝ) : ℝ :=
  Real.sqrt ((l.map (fun x => (x - listMean l) ^ 2)).sum / l.length)

/-- Method `SustainabilityMetrics.compute_eco_score`. -/
def compute_eco_score (t : Tracker) : ℝ :=
  let dist_km := max (t.distance_m / 1000.0) 0.1
  let jerk_std := if t.jerk_samples.length ≠ 0 then listStd t.jerk_samples else 0
  let penalty :=
    (jerk_std * 1.2 + (t.harsh_accel : ℝ) * 0.08 + (t.harsh_brake : ℝ) * 0.12 +
      t.idle_time_s * 0.01) / dist_km
  max 0.0 (100.0 - penalty)

/-- One CSV row of the per-vehicle log (values after Python's `round`). -/
structure LogRow where
  timestamp : ℝ
  x : ℝ
  y : ℝ
  speed_m_s : ℝ
  long_accel_m_s2 : ℝ
  jerk : ℝ
  power_w : ℝ
  dt_s : ℝ
  cumulative_energy_j : ℝ
  cumulative_co2_g : ℝ
  regen_j : ℝ
  eco_score : ℝ

/-- The row `SustainabilityMetrics.update` writes on a sampled flush:
`accum` is the accumulated `_accum_dt` before its reset, `t1` the tracker
state after this tick's accumulator updates. -/
def mkLogRow (snap : Snapshot) (loc : ℝ × ℝ) (speed accel jerk power_w accum : ℝ)
    (t1 : Tracker) : LogRow :=
  { timestamp := snap.elapsed_seconds
    x := roundTo loc.1 3
    y := roundTo loc.2 3
    speed_m_s := roundTo speed 3
    long_accel_m_s2 := roundTo accel 3
    jerk := roundTo jerk 3
    power_w := roundTo power_w 3
    dt_s := roundTo accum 4
    cumulative_energy_j := roundTo t1.energy_j 3
    cumulative_co2_g := roundTo t1.co2_g 3
    regen_j := roundTo t1.regen_j 3
    eco_score := roundTo (compute_eco_score t1) 2 }

/-- Method `SustainabilityMetrics.update`.  Inputs beyond the tracker state are the
external reads: the world snapshot, `get_velocity`, `get_acceleration`,
`get_location` (used only in the log row), the optional control (its
`throttle`), and the road slope.  Returns the new state and the log row
emitted, if any.  The source resets `_accum_dt` to `0` after writing the
row; here the reset is folded into the single record update (same result). -/
def Tracker.update (t : Tracker) (snap : Snapshot) (vel acc : Vec3) (loc : ℝ × ℝ)
    (control : Option ℝ) (slope : ℝ) : Tracker × Option LogRow :=
  if snap.delta_seconds ≤ 0 then (t, none)
  else
    let dt := snap.delta_seconds
    let speed := speed_of vel
    let accel := long_accel_of vel acc
    let power_w := compute_power t.params speed accel slope
    let jerk := (accel - t.last_accel) / dt
    let accum := t.accum_dt + dt
    let flush := 1 / ((max 1 t.sample_hz : ℕ) : ℝ) ≤ accum
    let t1 : Tracker :=
      { t with
        distance_m := t.distance_m + speed * dt
        energy_j := if 0 < power_w then t.energy_j + power_w * dt else t.energy_j
        co2_g :=
          if 0 < power_w then
            t.co2_g +
              (if t.params.is_ev then estimate_ev_co2 power_w dt 400.0
               else estimate_fuel_co2 power_w dt)
          else t.co2_g
        regen_j :=
          if 0 < power_w then t.regen_j else t.regen_j + |power_w| * dt * 0.5
        jerk_samples := t.jerk_samples ++ [jerk]
        last_accel := accel
        harsh_accel := if 2.0 < accel then t.harsh_accel + 1 else t.harsh_accel
        harsh_brake := if accel < -2.5 then t.harsh_brake + 1 else t.harsh_brake
        idle_time_s :=
          if speed < 0.3 ∧ (match control with | none => True | some th => th < 0.1)
          then t.idle_time_s + dt else t.idle_time_s
        accum_dt := if flush then 0 else accum }
    (t1, if flush then some (mkLogRow snap loc speed accel jerk power_w accum t1)
         else none)

/-- Shape of `SustainabilityMetrics.results`. -/
structure VehicleResults where
  vehicle_id : ℕ
  energy_Wh : ℝ
  regen_Wh : ℝ
  co2_g : ℝ
  distance_m : ℝ
  harsh_accel : ℕ
  harsh_brake : ℕ
  idle_time_s : ℝ
  eco_score : ℝ

/-- Method `SustainabilityMetrics.results`: pure snapshot, no mutation. -/
def Tracker.results (t : Tracker) : VehicleResults :=
  { vehicle_id := t.id
    energy_Wh := t.energy_j / 3600.0
    regen_Wh := t.regen_j / 3600.0
    co2_g := t.co2_g
    distance_m := t.distance_m
    harsh_accel := t.harsh_accel
    harsh_brake := t.harsh_brake
    idle_time_s := t.idle_time_s
    eco_score := compute_eco_score t }

/-- Method `SustainabilityMetrics.close`: `csv_file.close()` inside
`try:  except: pass` — any failure of the underlying file close
(`fileCloseFails`) is swallowed, and the sink is released regardless. -/
def Tracker.close (t : Tracker) (_fileCloseFails : Bool) : Tracker :=
  { t with sink_open := false }

/-- Python's `int()` on a float: truncation toward zero (floor for
non-negative values, ceiling for negative ones). -/
def pyInt (r : ℝ) : ℤ :=
  if 0 ≤ r then ⌊r⌋ else ⌈r⌉

/-- Lookup in the association-list model of a Python dict keyed by grid
cells (`self.grid`). -/
def gridGet (g : List ((ℤ × ℤ) × ℝ)) (c : ℤ × ℤ) : Option ℝ :=
  match g with
  | [] => none
  | e :: rest => if e.1 = c then some e.2 else gridGet rest c

/-- Model of `self.grid.setdefault((i,j), 0.0); self.grid[(i,j)] += v`: add `v` to
the cell's accumulator, inserting the cell (at the end, as dict insertion
order does) when absent. -/
def gridAdd (g : List ((ℤ × ℤ) × ℝ)) (c : ℤ × ℤ) (v : ℝ) :
    List ((ℤ × ℤ) × ℝ) :=
  match g with
  | [] => [(c, v)]
  | e :: rest => if e.1 = c then (e.1, e.2 + v) :: rest else e :: gridAdd rest c v

/-- The state of a `SustainabilityEvaluator`: immutable map bounds and cell
size, the insertion-ordered vehicle-id → tracker map, and the grid. -/
structure Evaluator where
  map_min_x : ℝ
  map_min_y : ℝ
  map_max_x : ℝ
  map_max_y : ℝ
  cell_size : ℝ
  metrics : List (ℕ × Tracker)
  grid : List ((ℤ × ℤ) × ℝ)

/-- Constructor `SustainabilityEvaluator.__init__` with the default bounds and cell
size and no registered vehicle. -/
def mkEvaluator : Evaluator :=
  { map_min_x := -1000
    map_min_y := -1000
    map_max_x := 1000
    map_max_y := 1000
    cell_size := 50
    metrics := []
    grid := [] }

/-- Method `SustainabilityEvaluator.register_vehicle`: a no-op when the id is
already registered, else insert a fresh tracker. -/
def Evaluator.register (e : Evaluator) (vid : ℕ) (p : Params) (sample_hz : ℕ) :
    Evaluator :=
  if (e.metrics.map Prod.fst).contains vid then e
  else { e with metrics := e.metrics ++ [(vid, mkTracker vid p sample_hz)] }

/-- The grid cell of a location:
`(int((x - min_x)/cell_size), int((y - min_y)/cell_size))`. -/
def Evaluator.cellOf (e : Evaluator) (loc : ℝ × ℝ) : ℤ × ℤ :=
  (pyInt ((loc.1 - e.map_min_x) / e.cell_size),
   pyInt ((loc.2 - e.map_min_y) / e.cell_size))

/-- What one vehicle's iteration of the `try` block in
`SustainabilityEvaluator.update` amounts to, as seen from outside:
either every external read succeeds (`ok` carries the values read — the
snapshot, velocity, acceleration, and the location used both for the log
row and the grid cell), or some exception is raised inside the block
(`err`), leaving the tracker at whatever (possibly partially mutated)
state `t'` it had reached and skipping that vehicle's grid contribution. -/
inductive TickOutcome where
  | ok (snap : Snapshot) (vel acc : Vec3) (loc : ℝ × ℝ)
  | err (t' : Tracker)

/-- The tracker state a vehicle ends the tick with, given its outcome.
On success `m.update(snapshot)` runs with no control and default slope 0. -/
def tickTracker (out : TickOutcome) (t : Tracker) : Tracker :=
  match out with
  | .ok snap vel acc loc => (t.update snap vel acc loc none 0).1
  | .err t' => t'

/-- One vehicle's iteration of the loop body of
`SustainabilityEvaluator.update`, threading the (metrics so far, grid)
accumulator: on success append the updated tracker and add its total
`co2_g` to its current cell; on an exception append the tracker as the
exception left it and leave the grid alone. -/
def evalStep (e : Evaluator) (st : List (ℕ × Tracker) × List ((ℤ × ℤ) × ℝ))
    (vm : ℕ × Tracker) (out : TickOutcome) :
    List (ℕ × Tracker) × List ((ℤ × ℤ) × ℝ) :=
  match out with
  | .err t' => (st.1 ++ [(vm.1, t')], st.2)
  | .ok snap vel acc loc =>
      (st.1 ++ [(vm.1, (vm.2.update snap vel acc loc none 0).1)],
       gridAdd st.2 (e.cellOf loc) ((vm.2.update snap vel acc loc none 0).1.co2_g))

/-- One vehicle's effect on the grid alone. -/
def gridContrib (e : Evaluator) (g : List ((ℤ × ℤ) × ℝ)) (vm : ℕ × Tracker)
    (out : TickOutcome) : List ((ℤ × ℤ) × ℝ) :=
  match out with
  | .err _ => g
  | .ok snap vel acc loc =>
      gridAdd g (e.cellOf loc) ((vm.2.update snap vel acc loc none 0).1.co2_g)

/-- Method `SustainabilityEvaluator.update`: iterate over the registered trackers
in order; on success update the tracker, compute its cell from the current
location, and add the tracker's (total) `co2_g` to the cell; on any
exception keep going with the next vehicle (the `except` clause only
prints). -/
def Evaluator.update (e : Evaluator) (outs : ℕ → TickOutcome) : Evaluator :=
  let r := e.metrics.foldl (fun st vm => evalStep e st vm (outs vm.1)) ([], e.grid)
  { e with metrics := r.1, grid := r.2 }

/-- A run: one `Evaluator.update` per simulation tick. -/
def Evaluator.run (e : Evaluator) (ticks : List (ℕ → TickOutcome)) : Evaluator :=
  ticks.foldl Evaluator.update e

/-- The summary object `finalize` serializes. -/
structure Summary where
  vehicles : List VehicleResults
  grid : List (ℤ × ℤ × ℝ)

/-- Method `SustainabilityEvaluator.finalize`: capture each tracker's `results()`
and `close()` it (the Python loop interleaves the two per tracker; both are
effect-free on the other trackers, so they are modelled as two maps), emit
`{i, j, co2_g}` for every grid entry, then write the summary.  The summary
write is the only fallible step (`writeFailure` models an `open`/`json.dump`
error) and it happens after every sink is closed; its failure is the one
that reaches the caller. -/
def Evaluator.finalize (e : Evaluator) (closeFails : ℕ → Bool)
    (writeFailure : Option String) :
    List (ℕ × Tracker) × Except String Summary :=
  let vehicles := e.metrics.map fun vm => vm.2.results
  let closed := e.metrics.map fun vm => (vm.1, vm.2.close (closeFails vm.1))
  let gridList := e.grid.map fun cell => (cell.1.1, cell.1.2, cell.2)
  (closed,
   match writeFailure with
   | some msg => .error msg
   | none => .ok { vehicles := vehicles, grid := gridList })

/-- The default physical parameters of `SustainabilityMetrics.__init__`
(mass fallback 1500 kg, cd 0.30, area 2.2 m², crr 0.01, drivetrain
efficiency 0.90, combustion powertrain). -/
def defaultParams : Params :=
  { mass := 1500
    cd := 0.30
    area := 2.2
    crr := 0.01
    drivetrain_eff := 0.90
    is_ev := false }

/-- One tick's worth of external inputs to a tracker update. -/
structure TickIn where
  snap : Snapshot
  vel : Vec3
  acc : Vec3
  loc : ℝ × ℝ
  control : Option ℝ
  slope : ℝ

/-- A sequence of tracker updates. -/
def Tracker.runUpdates (t : Tracker) (ins : List TickIn) : Tracker :=
  ins.foldl (fun s i => (s.update i.snap i.vel i.acc i.loc i.control i.slope).1) t

/-- Test fixture: an evaluator with the default bounds and one registered
vehicle (id 7). -/
def exampleEvaluator : Evaluator :=
  { mkEvaluator with metrics := [(7, mkTracker 7 defaultParams 5)] }

/-- Test fixture: every vehicle reads a resting state at position
`(-1025, -1000)` — 25 m left of the default map origin, so the x grid
quotient is `-0.5`. -/
def exampleOutcomes : ℕ → TickOutcome :=
  fun _ => .ok ⟨1, 0⟩ ⟨0, 0, 0⟩ ⟨0, 0, 0⟩ (-1025, -1000)

end

/-- The tracker state after a valid tick, with every accumulator written
out (the workhorse for the per-field lemmas below). -/
lemma update_fst_of_pos (t : Tracker) (snap : Snapshot) (vel acc : Vec3)
    (loc : ℝ × ℝ) (control : Option ℝ) (slope : ℝ)
    (h : ¬ snap.delta_seconds ≤ 0) :
    (t.update snap vel acc loc control slope).1 =
      { t with
        distance_m := t.distance_m + speed_of vel * snap.delta_seconds
        energy_j :=
          if 0 < compute_power t.params (speed_of vel) (long_accel_of vel acc) slope then
            t.energy_j +
              compute_power t.params (speed_of vel) (long_accel_of vel acc) slope *
                snap.delta_seconds
          else t.energy_j
        co2_g :=
          if 0 < compute_power t.params (speed_of vel) (long_accel_of vel acc) slope then
            t.co2_g +
              (if t.params.is_ev then
                estimate_ev_co2
                  (compute_power t.params (speed_of vel) (long_accel_of vel acc) slope)
                  snap.delta_seconds 400.0
               else
                estimate_fuel_co2
                  (compute_power t.params (speed_of vel) (long_accel_of vel acc) slope)
                  snap.delta_seconds)
          else t.co2_g
        regen_j :=
          if 0 < compute_power t.params (speed_of vel) (long_accel_of vel acc) slope then
            t.regen_j
          else
            t.regen_j +
              |compute_power t.params (speed_of vel) (long_accel_of vel acc) slope| *
                snap.delta_seconds * 0.5
        jerk_samples :=
          t.jerk_samples ++ [(long_accel_of vel acc - t.last_accel) / snap.delta_seconds]
        last_accel := long_accel_of vel acc
        harsh_accel :=
          if 2.0 < long_accel_of vel acc then t.harsh_accel + 1 else t.harsh_accel
        harsh_brake :=
          if long_accel_of vel acc < -2.5 then t.harsh_brake + 1 else t.harsh_brake
        idle_time_s :=
          if speed_of vel < 0.3 ∧
              (match control with | none => True | some th => th < 0.1) then
            t.idle_time_s + snap.delta_seconds
          else t.idle_time_s
        accum_dt :=
          if 1 / ((max 1 t.sample_hz : ℕ) : ℝ) ≤ t.accum_dt + snap.delta_seconds then 0
          else t.accum_dt + snap.delta_seconds } := by
  simp only [Tracker.update, if_neg h]

/-- C4: a tracker update with non-positive elapsed time leaves the entire
tracker state unchanged — every accumulator, the jerk history, `last_accel`
and the log-flush accumulator — and emits no log row. -/
theorem update_nonpos_dt_noop (t : Tracker) (snap : Snapshot) (vel acc : Vec3)
    (loc : ℝ × ℝ) (control : Option ℝ) (slope : ℝ)
    (h : snap.delta_seconds ≤ 0) :
    t.update snap vel acc loc control slope = (t, none) := by
  simp only [Tracker.update, if_pos h]

/-- C4 witness: a concrete zero-`dt` tick is a strict no-op. -/
theorem update_nonpos_dt_noop_witness :
    Tracker.update (mkTracker 0 defaultParams 5) ⟨0, 0⟩ ⟨0, 0, 0⟩ ⟨0, 0, 0⟩ (0, 0)
        none 0 =
      (mkTracker 0 defaultParams 5, none) :=
  update_nonpos_dt_noop (mkTracker 0 defaultParams 5) ⟨0, 0⟩ ⟨0, 0, 0⟩ ⟨0, 0, 0⟩
    (0, 0) none 0 (le_refl 0)

/-- C2: for a tick with `dt > 0`, writing `P` for the computed instantaneous
power: if `P > 0` the CO2 accumulator strictly increases (whichever of the
two emission models the tracker uses) and the regen accumulator is
unchanged; if `P ≤ 0` the CO2 and energy accumulators are exactly unchanged
and the regen accumulator grows by exactly `0.5 * |P| * dt`. -/
theorem update_power_sign_cases (t : Tracker) (snap : Snapshot) (vel acc : Vec3)
    (loc : ℝ × ℝ) (control : Option ℝ) (slope : ℝ)
    (hdt : 0 < snap.delta_seconds) :
    (0 < compute_power t.params (speed_of vel) (long_accel_of vel acc) slope →
      t.co2_g < ((t.update snap vel acc loc control slope).1).co2_g ∧
      ((t.update snap vel acc loc control slope).1).regen_j = t.regen_j) ∧
    (compute_power t.params (speed_of vel) (long_accel_of vel acc) slope ≤ 0 →
      ((t.update snap vel acc loc control slope).1).co2_g = t.co2_g ∧
      ((t.update snap vel acc loc control slope).1).energy_j = t.energy_j ∧
      ((t.update snap vel acc loc control slope).1).regen_j =
        t.regen_j +
          0.5 * |compute_power t.params (speed_of vel) (long_accel_of vel acc) slope| *
            snap.delta_seconds) := by
  have h' : ¬ snap.delta_seconds ≤ 0 := not_le.mpr hdt
  rw [update_fst_of_pos t snap vel acc loc control slope h']
  set P := compute_power t.params (speed_of vel) (long_accel_of vel acc) slope with hP
  constructor
  · intro hpos
    simp only [if_pos hpos]
    refine ⟨?_, trivial⟩
    have hPd : 0 < P * snap.delta_seconds := mul_pos hpos hdt
    rcases t.params.is_ev with _ | _
    · simp only [Bool.false_eq_true, if_false, estimate_fuel_co2, if_neg (not_le.mpr hpos)]
      have : 0 < P * snap.delta_seconds / 3.6e6 / 8.9 * 2310.0 := by positivity
      linarith
    · simp only [if_true, estimate_ev_co2]
      have : 0 < P * snap.delta_seconds / 3.6e6 * 400.0 := by positivity
      linarith
  · intro hnonpos
    have hnp : ¬ 0 < P := not_lt.mpr hnonpos
    simp only [if_neg hnp]
    exact ⟨trivial, trivial, by ring⟩

/-- C2 witness: the theorem at a concrete resting tick (`dt = 1`,
zero velocity and acceleration). -/
theorem update_power_sign_cases_witness :
    (0 < compute_power (mkTracker 0 defaultParams 5).params (speed_of ⟨0, 0, 0⟩)
        (long_accel_of ⟨0, 0, 0⟩ ⟨0, 0, 0⟩) 0 →
      (mkTracker 0 defaultParams 5).co2_g <
        (((mkTracker 0 defaultParams 5).update ⟨1, 0⟩ ⟨0, 0, 0⟩ ⟨0, 0, 0⟩ (0, 0)
            none 0).1).co2_g ∧
      (((mkTracker 0 defaultParams 5).update ⟨1, 0⟩ ⟨0, 0, 0⟩ ⟨0, 0, 0⟩ (0, 0)
          none 0).1).regen_j =
        (mkTracker 0 defaultParams 5).regen_j) ∧
    (compute_power (mkTracker 0 defaultParams 5).params (speed_of ⟨0, 0, 0⟩)
        (long_accel_of ⟨0, 0, 0⟩ ⟨0, 0, 0⟩) 0 ≤ 0 →
      (((mkTracker 0 defaultParams 5).update ⟨1, 0⟩ ⟨0, 0, 0⟩ ⟨0, 0, 0⟩ (0, 0)
          none 0).1).co2_g =
        (mkTracker 0 defaultParams 5).co2_g ∧
      (((mkTracker 0 defaultParams 5).update ⟨1, 0⟩ ⟨0, 0, 0⟩ ⟨0, 0, 0⟩ (0, 0)
          none 0).1).energy_j =
        (mkTracker 0 defaultParams 5).energy_j ∧
      (((mkTracker 0 defaultParams 5).update ⟨1, 0⟩ ⟨0, 0, 0⟩ ⟨0, 0, 0⟩ (0, 0)
          none 0).1).regen_j =
        (mkTracker 0 defaultParams 5).regen_j +
          0.5 *
            |compute_power (mkTracker 0 defaultParams 5).params (speed_of ⟨0, 0, 0⟩)
              (long_accel_of ⟨0, 0, 0⟩ ⟨0, 0, 0⟩) 0| *
            (1 : ℝ)) :=
  update_power_sign_cases (mkTracker 0 defaultParams 5) ⟨1, 0⟩ ⟨0, 0, 0⟩ ⟨0, 0, 0⟩
    (0, 0) none 0 one_pos

/-- Single-step form of C3: no single update decreases any cumulative
accumulator. -/
lemma update_mono (t : Tracker) (i : TickIn) :
    t.energy_j ≤ ((t.update i.snap i.vel i.acc i.loc i.control i.slope).1).energy_j ∧
    t.regen_j ≤ ((t.update i.snap i.vel i.acc i.loc i.control i.slope).1).regen_j ∧
    t.co2_g ≤ ((t.update i.snap i.vel i.acc i.loc i.control i.slope).1).co2_g ∧
    t.distance_m ≤ ((t.update i.snap i.vel i.acc i.loc i.control i.slope).1).distance_m ∧
    t.harsh_accel ≤ ((t.update i.snap i.vel i.acc i.loc i.control i.slope).1).harsh_accel ∧
    t.harsh_brake ≤ ((t.update i.snap i.vel i.acc i.loc i.control i.slope).1).harsh_brake ∧
    t.idle_time_s ≤ ((t.update i.snap i.vel i.acc i.loc i.control i.slope).1).idle_time_s := by
  by_cases h : i.snap.delta_seconds ≤ 0
  · simp [Tracker.update, if_pos h]
  · have hdt : 0 < i.snap.delta_seconds := not_le.mp h
    rw [update_fst_of_pos t i.snap i.vel i.acc i.loc i.control i.slope h]
    set P := compute_power t.params (speed_of i.vel) (long_accel_of i.vel i.acc) i.slope
      with hPdef
    have hsp : 0 ≤ speed_of i.vel := Real.sqrt_nonneg _
    refine ⟨?_, ?_, ?_, ?_, ?_, ?_, ?_⟩
    · by_cases hp : 0 < P
      · simp only [if_pos hp]
        nlinarith
      · simp only [if_neg hp]
        exact le_refl _
    · by_cases hp : 0 < P
      · simp only [if_pos hp]
        exact le_refl _
      · simp only [if_neg hp]
        have h1 : 0 ≤ |P| * i.snap.delta_seconds * 0.5 := by positivity
        linarith
    · by_cases hp : 0 < P
      · simp only [if_pos hp]
        rcases t.params.is_ev with _ | _
        · simp only [Bool.false_eq_true, if_false, estimate_fuel_co2]
          by_cases hq : P ≤ 0
          · simp [if_pos hq]
          · simp only [if_neg hq]
            have hq' : 0 < P := not_le.mp hq
            have : 0 ≤ P * i.snap.delta_seconds / 3.6e6 / 8.9 * 2310.0 := by positivity
            linarith
        · simp only [if_true, estimate_ev_co2]
          have : 0 ≤ P * i.snap.delta_seconds / 3.6e6 * 400.0 := by positivity
          linarith
      · simp only [if_neg hp]
        exact le_refl _
    · nlinarith [mul_nonneg hsp hdt.le]
    · by_cases hp : 2.0 < long_accel_of i.vel i.acc
      · simp only [if_pos hp]
        exact Nat.le_succ _
      · simp only [if_neg hp]
        exact le_refl _
    · by_cases hp : long_accel_of i.vel i.acc < -2.5
      · simp only [if_pos hp]
        exact Nat.le_succ _
      · simp only [if_neg hp]
        exact le_refl _
    · by_cases hp : speed_of i.vel < 0.3 ∧
          (match i.control with | none => True | some th => th < 0.1)
      · simp only [if_pos hp]
        linarith
      · simp only [if_neg hp]
        exact le_refl _

/-- C3: across any sequence of tracker updates, every cumulative
accumulator — energy, regen, CO2, distance, harsh-acceleration count,
harsh-braking count and idle time — is monotone non-decreasing. -/
theorem runUpdates_monotone (t : Tracker) (ins : List TickIn) :
    t.energy_j ≤ (t.runUpdates ins).energy_j ∧
    t.regen_j ≤ (t.runUpdates ins).regen_j ∧
    t.co2_g ≤ (t.runUpdates ins).co2_g ∧
    t.distance_m ≤ (t.runUpdates ins).distance_m ∧
    t.harsh_accel ≤ (t.runUpdates ins).harsh_accel ∧
    t.harsh_brake ≤ (t.runUpdates ins).harsh_brake ∧
    t.idle_time_s ≤ (t.runUpdates ins).idle_time_s := by
  induction ins generalizing t with
  | nil =>
      simp [Tracker.runUpdates]
  | cons i rest ih =>
      have hstep := update_mono t i
      have htail := ih ((t.update i.snap i.vel i.acc i.loc i.control i.slope).1)
      have hrun : t.runUpdates (i :: rest) =
          ((t.update i.snap i.vel i.acc i.loc i.control i.slope).1).runUpdates rest := rfl
      rw [hrun]
      obtain ⟨a1, a2, a3, a4, a5, a6, a7⟩ := hstep
      obtain ⟨b1, b2, b3, b4, b5, b6, b7⟩ := htail
      exact ⟨le_trans a1 b1, le_trans a2 b2, le_trans a3 b3, le_trans a4 b4,
        le_trans a5 b5, le_trans a6 b6, le_trans a7 b7⟩

/-- C5: the eco score equals
`max(0, 100 − (1.2*jerk_std + 0.08*harsh_accel + 0.12*harsh_brake +
0.01*idle_time_s) / max(distance_km, 0.1))` — where `jerk_std` is the
population standard deviation over the full jerk history, `0` when the
history is empty — and (for non-negative idle time) always lies in
`[0, 100]`. -/
theorem eco_score_formula_and_bounds (t : Tracker) (hidle : 0 ≤ t.idle_time_s) :
    compute_eco_score t =
      max 0 (100 -
        (1.2 * (if t.jerk_samples.length ≠ 0 then listStd t.jerk_samples else 0) +
            0.08 * (t.harsh_accel : ℝ) + 0.12 * (t.harsh_brake : ℝ) +
            0.01 * t.idle_time_s) /
          max (t.distance_m / 1000) 0.1) ∧
    0 ≤ compute_eco_score t ∧ compute_eco_score t ≤ 100 := by
  have hs : 0 ≤ (if t.jerk_samples.length ≠ 0 then listStd t.jerk_samples else 0) := by
    by_cases h : t.jerk_samples.length ≠ 0
    · simp only [if_pos h]
      exact Real.sqrt_nonneg _
    · simp only [if_neg h]
      exact le_refl 0
  have hd : (0 : ℝ) < max (t.distance_m / 1000.0) 0.1 :=
    lt_of_lt_of_le (by norm_num) (le_max_right _ _)
  have hnum : 0 ≤ (if t.jerk_samples.length ≠ 0 then listStd t.jerk_samples else 0) * 1.2 +
      (t.harsh_accel : ℝ) * 0.08 + (t.harsh_brake : ℝ) * 0.12 + t.idle_time_s * 0.01 := by
    have h1 : (0 : ℝ) ≤ (t.harsh_accel : ℝ) := Nat.cast_nonneg _
    have h2 : (0 : ℝ) ≤ (t.harsh_brake : ℝ) := Nat.cast_nonneg _
    nlinarith
  have hpen : 0 ≤ ((if t.jerk_samples.length ≠ 0 then listStd t.jerk_samples else 0) * 1.2 +
      (t.harsh_accel : ℝ) * 0.08 + (t.harsh_brake : ℝ) * 0.12 + t.idle_time_s * 0.01) /
      max (t.distance_m / 1000.0) 0.1 := div_nonneg hnum hd.le
  refine ⟨?_, ?_, ?_⟩
  · simp only [compute_eco_score]
    norm_num
    congr 1
    ring_nf
  · simp only [compute_eco_score]
    exact le_trans (by norm_num) (le_max_left (0.0 : ℝ) _)
  · simp only [compute_eco_score]
    refine max_le (by norm_num) ?_
    linarith

/-- C5 witness: the theorem at the freshly constructed tracker. -/
theorem eco_score_formula_and_bounds_witness :
    compute_eco_score (mkTracker 0 defaultParams 5) =
      max 0 (100 -
        (1.2 * (if (mkTracker 0 defaultParams 5).jerk_samples.length ≠ 0 then
              listStd (mkTracker 0 defaultParams 5).jerk_samples else 0) +
            0.08 * ((mkTracker 0 defaultParams 5).harsh_accel : ℝ) +
            0.12 * ((mkTracker 0 defaultParams 5).harsh_brake : ℝ) +
            0.01 * (mkTracker 0 defaultParams 5).idle_time_s) /
          max ((mkTracker 0 defaultParams 5).distance_m / 1000) 0.1) ∧
    0 ≤ compute_eco_score (mkTracker 0 defaultParams 5) ∧
    compute_eco_score (mkTracker 0 defaultParams 5) ≤ 100 :=
  eco_score_formula_and_bounds (mkTracker 0 defaultParams 5) (le_refl 0)

/-- C6: the spec's constant-speed scenario (speed 20 m/s, zero acceleration
and slope, default parameters, `dt = 1`): aero force `161.7 N`, rolling
force `147.15 N`, power `6177/0.9 W`, energy delta `6177/0.9 ≈ 6863 J`, and
combustion CO2 delta within `0.001 g` of `0.495 g` — all in exact
arithmetic. -/
theorem scenario_constant_speed_20 :
    aerodynamic_force 0.3 2.2 20 = 161.7 ∧
    rolling_resistance_force 0.01 1500 = 147.15 ∧
    compute_power defaultParams 20 0 0 = 6177 / 0.9 ∧
    (((mkTracker 1 defaultParams 5).update ⟨1, 0⟩ ⟨20, 0, 0⟩ ⟨0, 0, 0⟩ (0, 0)
        none 0).1).energy_j - (mkTracker 1 defaultParams 5).energy_j = 6177 / 0.9 ∧
    |6177 / 0.9 - (6863 : ℝ)| < 1 ∧
    |(((mkTracker 1 defaultParams 5).update ⟨1, 0⟩ ⟨20, 0, 0⟩ ⟨0, 0, 0⟩ (0, 0)
        none 0).1).co2_g - (mkTracker 1 defaultParams 5).co2_g - 0.495| < 0.001 := by
  have hsp : speed_of ⟨20, 0, 0⟩ = 20 := by
    unfold speed_of
    rw [show ((20 : ℝ) ^ 2 + 0 ^ 2 + 0 ^ 2) = 20 ^ 2 by norm_num]
    exact Real.sqrt_sq (by norm_num)
  have hacc : long_accel_of ⟨20, 0, 0⟩ ⟨0, 0, 0⟩ = 0 := by
    unfold long_accel_of
    rw [hsp, if_pos (by norm_num : (0.1 : ℝ) < 20)]
    norm_num
  have haero : aerodynamic_force 0.3 2.2 20 = 161.7 := by
    unfold aerodynamic_force RHO_AIR
    norm_num
  have hroll : rolling_resistance_force 0.01 1500 = 147.15 := by
    unfold rolling_resistance_force G
    norm_num
  have hpow : compute_power defaultParams 20 0 0 = 6177 / 0.9 := by
    simp only [compute_power, aerodynamic_force, rolling_resistance_force,
      gravity_force_on_slope, RHO_AIR, G, defaultParams]
    norm_num [max_def]
  have hup := update_fst_of_pos (mkTracker 1 defaultParams 5) ⟨1, 0⟩ ⟨20, 0, 0⟩
    ⟨0, 0, 0⟩ (0, 0) none 0 (by norm_num)
  have hP : compute_power defaultParams (speed_of ⟨20, 0, 0⟩)
      (long_accel_of ⟨20, 0, 0⟩ ⟨0, 0, 0⟩) 0 = 6177 / 0.9 := by
    rw [hsp, hacc]; exact hpow
  refine ⟨haero, hroll, hpow, ?_, by rw [abs_lt]; constructor <;> norm_num, ?_⟩
  · rw [hup]
    simp only [mkTracker]
    rw [hP, if_pos (show (0 : ℝ) < 6177 / 0.9 by norm_num)]
    norm_num
  · rw [hup]
    simp only [mkTracker]
    rw [hP, if_pos (show (0 : ℝ) < 6177 / 0.9 by norm_num),
      show defaultParams.is_ev = false from rfl, if_neg Bool.false_ne_true]
    simp only [estimate_fuel_co2, if_neg (show ¬(6177 / 0.9 : ℝ) ≤ 0 by norm_num)]
    rw [abs_lt]
    constructor <;> norm_num

/-- C10: `compute_power` is total and guarded against bad efficiency
values: the divisor `max(drivetrain_eff, 1e-6)` is strictly positive for
every efficiency (including values ≤ 0), and the function returns exactly
`P / max(drivetrain_eff, 1e-6)` when the force-balance power `P` is
non-negative and `P * drivetrain_eff` otherwise — so no division by zero
ever occurs. -/
theorem compute_power_total_guarded (p : Params) (speed accel slope : ℝ) :
    0 < max p.drivetrain_eff 1e-6 ∧
    (0 ≤ (aerodynamic_force p.cd p.area speed + rolling_resistance_force p.crr p.mass +
          gravity_force_on_slope p.mass slope + p.mass * accel) * speed →
      compute_power p speed accel slope * max p.drivetrain_eff 1e-6 =
        (aerodynamic_force p.cd p.area speed + rolling_resistance_force p.crr p.mass +
          gravity_force_on_slope p.mass slope + p.mass * accel) * speed) ∧
    ((aerodynamic_force p.cd p.area speed + rolling_resistance_force p.crr p.mass +
          gravity_force_on_slope p.mass slope + p.mass * accel) * speed < 0 →
      compute_power p speed accel slope =
        (aerodynamic_force p.cd p.area speed + rolling_resistance_force p.crr p.mass +
          gravity_force_on_slope p.mass slope + p.mass * accel) * speed *
          p.drivetrain_eff) := by
  have hmax : (0 : ℝ) < max p.drivetrain_eff 1e-6 :=
    lt_max_of_lt_right (by norm_num)
  refine ⟨hmax, ?_, ?_⟩
  · intro h
    simp only [compute_power, if_pos h]
    exact div_mul_cancel₀ _ (ne_of_gt hmax)
  · intro h
    simp only [compute_power, if_neg (not_le.mpr h)]

/-- Lemma: `evalStep` splits into its metrics part (`tickTracker`) and its grid
part (`gridContrib`). -/
lemma evalStep_decomp (e : Evaluator) (st : List (ℕ × Tracker) × List ((ℤ × ℤ) × ℝ))
    (vm : ℕ × Tracker) (out : TickOutcome) :
    evalStep e st vm out =
      (st.1 ++ [(vm.1, tickTracker out vm.2)], gridContrib e st.2 vm out) := by
  cases out <;> rfl

/-- The loop of `Evaluator.update` processes each vehicle independently:
the final metrics list is a per-vehicle map and the final grid a
per-vehicle fold. -/
lemma evalUpdate_foldl_decomp (e : Evaluator) (outs : ℕ → TickOutcome)
    (ms : List (ℕ × Tracker)) :
    ∀ (pre : List (ℕ × Tracker)) (g : List ((ℤ × ℤ) × ℝ)),
      ms.foldl (fun st vm => evalStep e st vm (outs vm.1)) (pre, g) =
        (pre ++ ms.map (fun vm => (vm.1, tickTracker (outs vm.1) vm.2)),
         ms.foldl (fun g vm => gridContrib e g vm (outs vm.1)) g) := by
  induction ms with
  | nil =>
      intro pre g
      simp
  | cons vm rest ih =>
      intro pre g
      rw [List.foldl_cons, List.foldl_cons, List.map_cons, evalStep_decomp, ih]
      simp

/-- The metrics after `Evaluator.update`: every registered tracker ends at
`tickTracker` of its own outcome. -/
lemma evalUpdate_metrics (e : Evaluator) (outs : ℕ → TickOutcome) :
    (e.update outs).metrics =
      e.metrics.map (fun vm => (vm.1, tickTracker (outs vm.1) vm.2)) := by
  simp only [Evaluator.update]
  rw [evalUpdate_foldl_decomp]
  simp

/-- The grid after `Evaluator.update`: the per-vehicle contribution fold. -/
lemma evalUpdate_grid (e : Evaluator) (outs : ℕ → TickOutcome) :
    (e.update outs).grid =
      e.metrics.foldl (fun g vm => gridContrib e g vm (outs vm.1)) e.grid := by
  simp only [Evaluator.update]
  rw [evalUpdate_foldl_decomp]

/-- Lemma: `Evaluator.update` keeps the registered vehicle ids (in order). -/
lemma evalUpdate_ids (e : Evaluator) (outs : ℕ → TickOutcome) :
    (e.update outs).metrics.map Prod.fst = e.metrics.map Prod.fst := by
  rw [evalUpdate_metrics]
  simp

/-- Lemma: `Evaluator.update` never touches the map bounds or cell size. -/
lemma evalUpdate_cellOf (e : Evaluator) (outs : ℕ → TickOutcome) (loc : ℝ × ℝ) :
    (e.update outs).cellOf loc = e.cellOf loc := rfl

/-- Adding to a cell sets that cell to its previous value (default `0`)
plus the addend. -/
lemma gridGet_gridAdd_self (g : List ((ℤ × ℤ) × ℝ)) (c : ℤ × ℤ) (v : ℝ) :
    gridGet (gridAdd g c v) c = some ((gridGet g c).getD 0 + v) := by
  induction g with
  | nil =>
      simp [gridAdd, gridGet]
  | cons hd rest ih =>
      by_cases h : hd.1 = c
      · simp [gridAdd, gridGet, h]
      · simp [gridAdd, gridGet, h, ih]

/-- Adding to a cell leaves every other cell's value unchanged. -/
lemma gridGet_gridAdd_other (g : List ((ℤ × ℤ) × ℝ)) (c c' : ℤ × ℤ) (v : ℝ)
    (h : c' ≠ c) : gridGet (gridAdd g c v) c' = gridGet g c' := by
  have h' : ¬ c = c' := fun he => h he.symm
  induction g with
  | nil =>
      simp [gridAdd, gridGet, h']
  | cons hd rest ih =>
      by_cases hh : hd.1 = c
      · simp [gridAdd, gridGet, hh, h']
      · simp [gridAdd, gridGet, hh, ih]

/-- A cell is present after `gridAdd` iff it was present before or is the
cell added to. -/
lemma isSome_gridAdd (g : List ((ℤ × ℤ) × ℝ)) (c c' : ℤ × ℤ) (v : ℝ) :
    (gridGet (gridAdd g c v) c').isSome ↔ (gridGet g c').isSome ∨ c' = c := by
  by_cases h : c' = c
  · subst h
    rw [gridGet_gridAdd_self]
    simp
  · rw [gridGet_gridAdd_other g c c' v h]
    simp [h]

/-- A cell is present after a vehicle's grid contribution iff it was
present before, or the vehicle succeeded and the cell is its current one. -/
lemma isSome_gridContrib (e : Evaluator) (g : List ((ℤ × ℤ) × ℝ))
    (vm : ℕ × Tracker) (out : TickOutcome) (c : ℤ × ℤ) :
    (gridGet (gridContrib e g vm out) c).isSome ↔
      (gridGet g c).isSome ∨
        ∃ snap vel acc loc, out = .ok snap vel acc loc ∧ c = e.cellOf loc := by
  cases out with
  | err t' =>
      simp [gridContrib]
  | ok snap vel acc loc =>
      simp only [gridContrib]
      rw [isSome_gridAdd]
      constructor
      · rintro (hg | hc)
        · exact Or.inl hg
        · exact Or.inr ⟨snap, vel, acc, loc, rfl, hc⟩
      · rintro (hg | ⟨s, v, a, l, heq, hc⟩)
        · exact Or.inl hg
        · cases heq
          exact Or.inr hc

/-- A cell is present after the whole per-tick fold iff it was present
before or some vehicle in the list succeeded and landed in it. -/
lemma isSome_gridContrib_foldl (e : Evaluator) (outs : ℕ → TickOutcome)
    (ms : List (ℕ × Tracker)) :
    ∀ (g : List ((ℤ × ℤ) × ℝ)) (c : ℤ × ℤ),
      (gridGet (ms.foldl (fun g vm => gridContrib e g vm (outs vm.1)) g) c).isSome ↔
        (gridGet g c).isSome ∨
          ∃ vid ∈ ms.map Prod.fst, ∃ snap vel acc loc,
            outs vid = .ok snap vel acc loc ∧ c = e.cellOf loc := by
  induction ms with
  | nil =>
      intro g c
      simp
  | cons vm rest ih =>
      intro g c
      rw [List.foldl_cons, ih, isSome_gridContrib]
      simp only [List.map_cons, List.mem_cons]
      constructor
      · rintro ((hg | ⟨s, v, a, l, hok, hc⟩) | ⟨vid, hmem, s, v, a, l, hok, hc⟩)
        · exact Or.inl hg
        · exact Or.inr ⟨vm.1, Or.inl rfl, s, v, a, l, hok, hc⟩
        · exact Or.inr ⟨vid, Or.inr hmem, s, v, a, l, hok, hc⟩
      · rintro (hg | ⟨vid, hvid | hmem, s, v, a, l, hok, hc⟩)
        · exact Or.inl (Or.inl hg)
        · subst hvid
          exact Or.inl (Or.inr ⟨s, v, a, l, hok, hc⟩)
        · exact Or.inr ⟨vid, hmem, s, v, a, l, hok, hc⟩

/-- A cell is present after one `Evaluator.update` iff it was present
before or some registered vehicle succeeded this tick and landed in it. -/
lemma isSome_evalUpdate_grid (e : Evaluator) (outs : ℕ → TickOutcome) (c : ℤ × ℤ) :
    (gridGet (e.update outs).grid c).isSome ↔
      (gridGet e.grid c).isSome ∨
        ∃ vid ∈ e.metrics.map Prod.fst, ∃ snap vel acc loc,
          outs vid = .ok snap vel acc loc ∧ c = e.cellOf loc := by
  rw [evalUpdate_grid]
  exact isSome_gridContrib_foldl e outs e.metrics e.grid c

/-- A cell is present after a whole run iff it was present initially or
some tick charged it: some registered vehicle had a successful outcome
that tick whose location falls in the cell. -/
lemma isSome_run_grid (ticks : List (ℕ → TickOutcome)) :
    ∀ (e : Evaluator) (c : ℤ × ℤ),
      (gridGet (e.run ticks).grid c).isSome ↔
        (gridGet e.grid c).isSome ∨
          ∃ outs ∈ ticks, ∃ vid ∈ e.metrics.map Prod.fst, ∃ snap vel acc loc,
            outs vid = .ok snap vel acc loc ∧ c = e.cellOf loc := by
  induction ticks with
  | nil =>
      intro e c
      simp [Evaluator.run]
  | cons outs rest ih =>
      intro e c
      have hrun : e.run (outs :: rest) = (e.update outs).run rest := rfl
      rw [hrun, ih ((e.update outs)) c]
      simp only [evalUpdate_ids, evalUpdate_cellOf, List.mem_cons]
      rw [isSome_evalUpdate_grid]
      constructor
      · rintro ((hg | ⟨vid, hmem, s, v, a, l, hok, hc⟩) |
            ⟨o, ho, vid, hmem, s, v, a, l, hok, hc⟩)
        · exact Or.inl hg
        · exact Or.inr ⟨outs, Or.inl rfl, vid, hmem, s, v, a, l, hok, hc⟩
        · exact Or.inr ⟨o, Or.inr ho, vid, hmem, s, v, a, l, hok, hc⟩
      · rintro (hg | ⟨o, ho | ho, vid, hmem, s, v, a, l, hok, hc⟩)
        · exact Or.inl (Or.inl hg)
        · subst ho
          exact Or.inl (Or.inr ⟨vid, hmem, s, v, a, l, hok, hc⟩)
        · exact Or.inr ⟨o, ho, vid, hmem, s, v, a, l, hok, hc⟩

/-- Membership of `(i, j, co2)` in the serialized grid list is presence of
cell `(i, j)` in the grid map. -/
lemma exists_mem_map_grid (g : List ((ℤ × ℤ) × ℝ)) (i j : ℤ) :
    (∃ co2, (i, j, co2) ∈ g.map fun cell => (cell.1.1, cell.1.2, cell.2)) ↔
      (gridGet g (i, j)).isSome := by
  induction g with
  | nil =>
      simp [gridGet]
  | cons hd rest ih =>
      simp only [List.map_cons, List.mem_cons, gridGet]
      by_cases h : hd.1 = (i, j)
      · rw [if_pos h]
        simp only [Option.isSome_some, iff_true]
        refine ⟨hd.2, Or.inl ?_⟩
        rw [Prod.ext_iff] at h
        simp [Prod.ext_iff, h.1, h.2]
      · rw [if_neg h]
        rw [← ih]
        constructor
        · rintro ⟨co2, hin | hin⟩
          · exfalso
            apply h
            rw [Prod.ext_iff] at hin
            obtain ⟨h1, h2⟩ := hin
            rw [Prod.ext_iff] at h2
            exact Prod.ext h1.symm h2.1.symm
          · exact ⟨co2, hin⟩
        · rintro ⟨co2, hin⟩
          exact ⟨co2, Or.inr hin⟩

/-- C7: a per-vehicle failure is isolated.  `Evaluator.update` is a total
function of the per-vehicle outcomes (no exception escapes it), every
registered tracker still ends the tick at the state its own outcome
dictates — a map independent of the other vehicles' outcomes — and the
grid receives contributions exactly from the vehicles whose tick
succeeded (`gridContrib` is the identity on an `err` outcome). -/
theorem evaluator_update_isolates_failures (e : Evaluator) (outs : ℕ → TickOutcome) :
    (e.update outs).metrics =
      e.metrics.map (fun vm => (vm.1, tickTracker (outs vm.1) vm.2)) ∧
    (e.update outs).grid =
      e.metrics.foldl (fun g vm => gridContrib e g vm (outs vm.1)) e.grid :=
  ⟨evalUpdate_metrics e outs, evalUpdate_grid e outs⟩

/-- C1 counterexample: the claim says the cell is the mathematical floor
of the quotients even left of the map origin.  With the default bounds and
cell size, a successful update at `x = -1025` (quotient `-0.5`) would then
charge cell `(-1, 0)`; the code's `int()` truncates toward zero, so cell
`(0, 0)` is charged and the floor cell `(-1, 0)` receives nothing. -/
theorem grid_cell_not_floor_counterexample :
    ⌊(((-1025 : ℝ)) - -1000) / 50⌋ = -1 ∧
    exampleEvaluator.cellOf (-1025, -1000) = (0, 0) ∧
    gridGet (exampleEvaluator.update exampleOutcomes).grid (-1, 0) = none ∧
    (gridGet (exampleEvaluator.update exampleOutcomes).grid (0, 0)).isSome := by
  have hq : (((-1025 : ℝ)) - -1000) / 50 = -(1 / 2) := by norm_num
  have hfloor : ⌊(((-1025 : ℝ)) - -1000) / 50⌋ = -1 := by
    rw [hq, Int.floor_eq_iff]
    constructor <;> norm_num
  have hx : pyInt ((((-1025 : ℝ)) - -1000) / 50) = 0 := by
    rw [pyInt, if_neg (by rw [hq]; norm_num)]
    rw [hq, Int.ceil_eq_iff]
    constructor <;> norm_num
  have hy : pyInt ((((-1000 : ℝ)) - -1000) / 50) = 0 := by
    rw [pyInt, if_pos (by norm_num)]
    rw [show (((-1000 : ℝ)) - -1000) / 50 = 0 by norm_num]
    exact Int.floor_zero
  have hcell : exampleEvaluator.cellOf (-1025, -1000) = (0, 0) := by
    rw [show exampleEvaluator.cellOf (-1025, -1000) =
        (pyInt ((((-1025 : ℝ)) - -1000) / 50),
         pyInt ((((-1000 : ℝ)) - -1000) / 50)) from rfl, hx, hy]
  have hgrid : (exampleEvaluator.update exampleOutcomes).grid =
      gridAdd [] (exampleEvaluator.cellOf (-1025, -1000))
        (((mkTracker 7 defaultParams 5).update ⟨1, 0⟩ ⟨0, 0, 0⟩ ⟨0, 0, 0⟩
            (-1025, -1000) none 0).1).co2_g := by
    rw [evalUpdate_grid]
    rfl
  refine ⟨hfloor, hcell, ?_, ?_⟩
  · rw [hgrid, hcell]
    simp only [gridAdd, gridGet]
    rw [if_neg (by decide)]
  · rw [hgrid, hcell]
    simp [gridAdd, gridGet]

/-- C1 (amended): after a registered vehicle's successful update, the cell
charged is `(int((x - min_x)/cell_size), int((y - min_y)/cell_size))`
where `int` truncates toward zero — it agrees with the floor exactly for
non-negative quotients — and the amount added to that cell is the
tracker's total cumulative CO2 mass so far, not the delta since the
previous tick; no other cell changes. -/
theorem grid_charges_truncated_cell_with_total_co2 (e : Evaluator)
    (outs : ℕ → TickOutcome) (vid : ℕ) (t : Tracker) (snap : Snapshot)
    (vel acc : Vec3) (loc : ℝ × ℝ)
    (hm : e.metrics = [(vid, t)]) (ho : outs vid = .ok snap vel acc loc) :
    gridGet (e.update outs).grid
        (pyInt ((loc.1 - e.map_min_x) / e.cell_size),
         pyInt ((loc.2 - e.map_min_y) / e.cell_size)) =
      some ((gridGet e.grid
            (pyInt ((loc.1 - e.map_min_x) / e.cell_size),
             pyInt ((loc.2 - e.map_min_y) / e.cell_size))).getD 0 +
          ((t.update snap vel acc loc none 0).1).co2_g) ∧
    (∀ c2, c2 ≠ (pyInt ((loc.1 - e.map_min_x) / e.cell_size),
          pyInt ((loc.2 - e.map_min_y) / e.cell_size)) →
      gridGet (e.update outs).grid c2 = gridGet e.grid c2) ∧
    (∀ r : ℝ, 0 ≤ r → pyInt r = ⌊r⌋) := by
  have hcell : e.cellOf loc =
      (pyInt ((loc.1 - e.map_min_x) / e.cell_size),
       pyInt ((loc.2 - e.map_min_y) / e.cell_size)) := rfl
  have hgrid : (e.update outs).grid =
      gridAdd e.grid (e.cellOf loc) ((t.update snap vel acc loc none 0).1).co2_g := by
    rw [evalUpdate_grid, hm, List.foldl_cons, List.foldl_nil]
    simp [gridContrib, ho]
  rw [hgrid, hcell]
  exact ⟨gridGet_gridAdd_self _ _ _,
    fun c2 hc2 => gridGet_gridAdd_other _ _ _ _ hc2,
    fun r hr => by rw [pyInt, if_pos hr]⟩

/-- C1 (amended) witness: the amended theorem at the concrete evaluator of
the counterexample. -/
theorem grid_charges_truncated_cell_witness :
    gridGet (exampleEvaluator.update exampleOutcomes).grid
        (pyInt (((-1025 : ℝ) - exampleEvaluator.map_min_x) / exampleEvaluator.cell_size),
         pyInt (((-1000 : ℝ) - exampleEvaluator.map_min_y) / exampleEvaluator.cell_size)) =
      some ((gridGet exampleEvaluator.grid
            (pyInt (((-1025 : ℝ) - exampleEvaluator.map_min_x) / exampleEvaluator.cell_size),
             pyInt (((-1000 : ℝ) - exampleEvaluator.map_min_y) / exampleEvaluator.cell_size))).getD 0 +
          (((mkTracker 7 defaultParams 5).update ⟨1, 0⟩ ⟨0, 0, 0⟩ ⟨0, 0, 0⟩
              (-1025, -1000) none 0).1).co2_g) ∧
    (∀ c2, c2 ≠ (pyInt (((-1025 : ℝ) - exampleEvaluator.map_min_x) / exampleEvaluator.cell_size),
          pyInt (((-1000 : ℝ) - exampleEvaluator.map_min_y) / exampleEvaluator.cell_size)) →
      gridGet (exampleEvaluator.update exampleOutcomes).grid c2 =
        gridGet exampleEvaluator.grid c2) ∧
    (∀ r : ℝ, 0 ≤ r → pyInt r = ⌊r⌋) :=
  grid_charges_truncated_cell_with_total_co2 exampleEvaluator exampleOutcomes 7
    (mkTracker 7 defaultParams 5) ⟨1, 0⟩ ⟨0, 0, 0⟩ ⟨0, 0, 0⟩ (-1025, -1000) rfl rfl

/-- C8: one `finalize` call closes the log sink of every registered
tracker — whatever the per-sink underlying close failures, which
`Tracker.close` swallows, and whether or not the summary write fails —
the closed list keeps exactly the registered vehicle ids, and the only
failure `finalize` surfaces to the caller is the summary-write one. -/
theorem finalize_closes_every_sink (e : Evaluator) (closeFails : ℕ → Bool)
    (writeFailure : Option String) :
    (∀ vm ∈ (e.finalize closeFails writeFailure).1, vm.2.sink_open = false) ∧
    (e.finalize closeFails writeFailure).1.map Prod.fst = e.metrics.map Prod.fst ∧
    (∀ msg, (e.finalize closeFails writeFailure).2 = Except.error msg →
      writeFailure = some msg) := by
  refine ⟨?_, ?_, ?_⟩
  · intro vm hvm
    simp only [Evaluator.finalize, List.mem_map] at hvm
    obtain ⟨vm0, _hvm0, heq⟩ := hvm
    rw [← heq]
    rfl
  · simp [Evaluator.finalize, List.map_map, Function.comp]
  · intro msg h
    cases hw : writeFailure with
    | none =>
        subst hw
        simp [Evaluator.finalize] at h
    | some m =>
        subst hw
        simp only [Evaluator.finalize] at h
        injection h with h'
        rw [h']

/-- C9: the summary grid produced by `finalize` after a run that started
with an empty grid contains an `{i, j, co2}` entry exactly for the touched
cells: those into which some tick's successful vehicle update fell.  Cells
never touched by a successful update do not appear. -/
theorem summary_grid_cells_iff_touched (e : Evaluator)
    (ticks : List (ℕ → TickOutcome)) (closeFails : ℕ → Bool) (i j : ℤ)
    (hg : e.grid = []) :
    ∃ s, ((e.run ticks).finalize closeFails none).2 = Except.ok s ∧
      ((∃ co2, (i, j, co2) ∈ s.grid) ↔
        ∃ outs ∈ ticks, ∃ vid ∈ e.metrics.map Prod.fst, ∃ snap vel acc loc,
          outs vid = .ok snap vel acc loc ∧ (i, j) = e.cellOf loc) := by
  refine ⟨_, rfl, ?_⟩
  show (∃ co2, (i, j, co2) ∈
      (e.run ticks).grid.map fun cell => (cell.1.1, cell.1.2, cell.2)) ↔ _
  rw [exists_mem_map_grid, isSome_run_grid, hg]
  simp [gridGet]

/-- C9 witness: the theorem at the empty evaluator with no ticks. -/
theorem summary_grid_cells_iff_touched_witness :
    ∃ s, ((mkEvaluator.run []).finalize (fun _ => false) none).2 = Except.ok s ∧
      ((∃ co2, ((0 : ℤ), (0 : ℤ), co2) ∈ s.grid) ↔
        ∃ outs ∈ ([] : List (ℕ → TickOutcome)),
          ∃ vid ∈ mkEvaluator.metrics.map Prod.fst, ∃ snap vel acc loc,
            outs vid = .ok snap vel acc loc ∧
              ((0 : ℤ), (0 : ℤ)) = mkEvaluator.cellOf loc) :=
  summary_grid_cells_iff_touched mkEvaluator [] (fun _ => false) 0 0 rfl

end Sustain
